import Mathlib

/-!
Verification of the SmartAgencyHub client-portal core: the dashboard
aggregation / entity-normalization layer of
`client/src/pages/projects.tsx` and `client/src/pages/client-dashboard.tsx`.

The TypeScript is embedded shallowly: optional (nullable) fields become
`Option`, JavaScript truthiness (`x || d`, `x ? a : b`) and nullish
coalescing (`x ?? d`) become explicit functions, component state becomes a
record with the event handlers as state-transition functions, and rendered
fragments become the display values they produce.
-/

/-- JavaScript `x || d` on an optional string: `null`/`undefined` and the
empty string are falsy, every other string is returned unchanged. -/
def jsOrString (o : Option String) (d : String) : String :=
  match o with
  | none => d
  | some s => if s == "" then d else s

/-- JavaScript `x ?? d` on an optional number: only `null`/`undefined`
fall back to the default. -/
def nullishNat (o : Option Nat) (d : Nat) : Nat :=
  match o with
  | none => d
  | some n => n

/-- A `Project.deadline` value as `handleEdit` distinguishes them at
runtime (`typeof project.deadline === 'string'`): either a plain date
string, or a `Date` object carried here by the calendar-date part of its
ISO timestamp (what `new Date(d).toISOString().split('T')[0]` extracts). -/
inductive DeadlineValue where
  | str (s : String)
  | date (isoDatePart : String)
deriving DecidableEq, Repr

/-- The calendar date a stored deadline denotes, for "compared as calendar
dates" equality: a plain string is its own date, a date-time value denotes
the date part of its ISO timestamp. -/
def calendarDateOf : DeadlineValue → String
  | .str s => s
  | .date d => d

/-- Canonical `Project` record (fields used by the two pages; the extended
delivery-metadata fields are read through `(project as any)` in the source
and may be absent, hence `Option`). -/
structure Project where
  id : String
  clientId : String
  name : String
  description : Option String
  status : String
  budget : Option String
  progress : Option Nat
  deadline : Option DeadlineValue
  shortVideoUrl : Option String
  fullFeatureVideoUrl : Option String
  hostingLink : Option String
  adminLoginLink : Option String
  adminUsername : Option String
  adminPassword : Option String
  credentialsNotes : Option String
deriving DecidableEq, Repr

/-- Form state of the project dialog (`ProjectFormData`): every field is a
defined value, dates as `YYYY-MM-DD` strings, progress a number. -/
structure ProjectFormData where
  clientId : String
  name : String
  description : String
  status : String
  budget : String
  progress : Nat
  deadline : String
  shortVideoUrl : String
  fullFeatureVideoUrl : String
  hostingLink : String
  adminLoginLink : String
  adminUsername : String
  adminPassword : String
  credentialsNotes : String
deriving DecidableEq, Repr

/-- The deadline expression of `handleEdit`:
`project.deadline ? (typeof … === 'string' ? project.deadline :
new Date(…).toISOString().split('T')[0]) : ""`. A `Date` object is always
truthy; an empty string is falsy and yields `""`. -/
def loadDeadline : Option DeadlineValue → String
  | none => ""
  | some (.str s) => if s == "" then "" else s
  | some (.date d) => d

/-- The object `handleEdit` passes to `form.reset`: the load-direction
projection of a canonical record into form state
(projects.tsx lines 107-122). -/
def handleEditFormState (p : Project) : ProjectFormData where
  clientId := p.clientId
  name := p.name
  description := jsOrString p.description ""
  status := p.status
  budget := jsOrString p.budget "0"
  progress := nullishNat p.progress 0
  deadline := loadDeadline p.deadline
  shortVideoUrl := jsOrString p.shortVideoUrl ""
  fullFeatureVideoUrl := jsOrString p.fullFeatureVideoUrl ""
  hostingLink := jsOrString p.hostingLink ""
  adminLoginLink := jsOrString p.adminLoginLink ""
  adminUsername := jsOrString p.adminUsername ""
  adminPassword := jsOrString p.adminPassword ""
  credentialsNotes := jsOrString p.credentialsNotes ""

/-- The object `handleAddNew` passes to `form.reset` (projects.tsx
lines 129-143), equal to the form's `defaultValues`. -/
def defaultFormValues : ProjectFormData where
  clientId := ""
  name := ""
  description := ""
  status := "planning"
  budget := "0"
  progress := 0
  deadline := ""
  shortVideoUrl := ""
  fullFeatureVideoUrl := ""
  hostingLink := ""
  adminLoginLink := ""
  adminUsername := ""
  adminPassword := ""
  credentialsNotes := ""

/-- Modelled from the spec: the date coercion of
`normalizeProjectData` lives in `client/src/lib/normalizeDateInputs`, a
module of this repository that is not among the provided sources. Per
section 4.2, the save direction validates/coerces date-only fields to a
canonical calendar-date representation and submits empty strings as such
(an explicit clear). Deadlines produced by the load direction are already
canonical (`YYYY-MM-DD` or `""`), on which the coercion is the identity. -/
def normalizeDateInput (s : String) : String := s

/-- Modelled from the spec: `normalizeProjectData`, applied by `onSubmit`
before the patch is sent. Per section 4.2 it normalizes the date-only
fields, keeps budget a decimal string and progress an integer, and passes
every other field through unchanged, empty strings included. -/
def normalizeProjectData (d : ProjectFormData) : ProjectFormData :=
  { d with deadline := normalizeDateInput d.deadline }

/-- A toast notification as raised by `useToast`: the success toasts carry
no variant, the error toasts carry `variant: "destructive"`. -/
structure Toast where
  title : String
  description : String
  variant : Option String
deriving DecidableEq, Repr

/-- The `useState` cells of the `Projects` component together with the
form state and the toasts raised so far; `openDialog` is the source's
`open` state (renamed: `open` is reserved in Lean). -/
structure PageState where
  openDialog : Bool
  editingProject : Option Project
  showPassword : Bool
  form : ProjectFormData
  toasts : List Toast

/-- `handleEdit` (projects.tsx lines 104-124) as a state transition:
remember the project being edited, hide the password, reset the form from
the record, open the dialog. -/
def handleEdit (s : PageState) (p : Project) : PageState :=
  { s with
    editingProject := some p
    showPassword := false
    form := handleEditFormState p
    openDialog := true }

/-- `handleAddNew` (projects.tsx lines 126-145) as a state transition:
clear the edited project, hide the password, reset the form to the blank
defaults, open the dialog. -/
def handleAddNew (s : PageState) : PageState :=
  { s with
    editingProject := none
    showPassword := false
    form := defaultFormValues
    openDialog := true }

/-- The common `onError` body of `createMutation` and `updateMutation`
(projects.tsx lines 56-58 and 71-73): raise a destructive toast carrying
the server-provided message; nothing else changes. -/
def mutationOnError (s : PageState) (msg : String) : PageState :=
  { s with
    toasts := s.toasts ++ [{ title := "Error", description := msg, variant := some "destructive" }] }

/-- The `type` attribute of the admin-password input
(projects.tsx line 476): `showPassword ? "text" : "password"`. -/
def passwordInputType (showPassword : Bool) : String :=
  if showPassword then "text" else "password"

/-- `getStatusColor` of client-dashboard.tsx (lines 101-113): handles the
four project statuses and the four invoice statuses. -/
def getStatusColorDashboard (status : String) : String :=
  if status == "planning" then "bg-gray-100 text-gray-700 dark:bg-gray-800 dark:text-gray-300"
  else if status == "active" then "bg-blue-100 text-blue-700 dark:bg-blue-950 dark:text-blue-300"
  else if status == "on-hold" then "bg-yellow-100 text-yellow-700 dark:bg-yellow-950 dark:text-yellow-300"
  else if status == "completed" then "bg-green-100 text-green-700 dark:bg-green-950 dark:text-green-300"
  else if status == "draft" then "bg-gray-100 text-gray-700 dark:bg-gray-800 dark:text-gray-300"
  else if status == "sent" then "bg-blue-100 text-blue-700 dark:bg-blue-950 dark:text-blue-300"
  else if status == "paid" then "bg-green-100 text-green-700 dark:bg-green-950 dark:text-green-300"
  else if status == "overdue" then "bg-red-100 text-red-700 dark:bg-red-950 dark:text-red-300"
  else "bg-muted text-muted-foreground"

/-- `getStatusColor` of projects.tsx (lines 147-155): handles only the
four project statuses. -/
def getStatusColorProjects (status : String) : String :=
  if status == "planning" then "bg-blue-100 text-blue-700 dark:bg-blue-950 dark:text-blue-300"
  else if status == "active" then "bg-green-100 text-green-700 dark:bg-green-950 dark:text-green-300"
  else if status == "on-hold" then "bg-yellow-100 text-yellow-700 dark:bg-yellow-950 dark:text-yellow-300"
  else if status == "completed" then "bg-purple-100 text-purple-700 dark:bg-purple-950 dark:text-purple-300"
  else "bg-muted text-muted-foreground"

/-- The neutral default tag both switch statements fall back to. -/
def defaultStatusColor : String := "bg-muted text-muted-foreground"

/-- The known project statuses (data model section 3). -/
def projectStatuses : List String := ["planning", "active", "on-hold", "completed"]

/-- The known invoice statuses (data model section 3). -/
def invoiceStatuses : List String := ["draft", "sent", "paid", "overdue"]

/-- How a JSX interpolation `{x}` of an optional number renders: `null`
and `undefined` render as nothing, a number as its decimal text. -/
def jsxNumberText : Option Nat → String
  | some n => toString n
  | none => ""

/-- The progress badge text `{project.progress}%` (client-dashboard.tsx
line 180, projects.tsx line 567). -/
def progressBadgeText (progress : Option Nat) : String :=
  jsxNumberText progress ++ "%"

/-- The progress-bar value `project.progress ?? 0` (client-dashboard.tsx
line 177, projects.tsx line 569). -/
def progressBarValue (progress : Option Nat) : Nat :=
  nullishNat progress 0

/-- JavaScript truthiness of an optional string, as used by the
conditional renderings `{credential.liveLink && …}`: absent and empty
strings are falsy. -/
def truthy : Option String → Bool
  | none => false
  | some s => !(s == "")

/-- A `ProjectCredentials` record (client-visible projection, data model
section 3): every credential field an optional string. -/
structure ProjectCredentials where
  id : String
  projectName : String
  thumbnailUrl : Option String
  hostingPlatform : Option String
  shortDescription : Option String
  liveLink : Option String
  adminPanelLink : Option String
  databaseUrl : Option String
  serverCredentials : Option String
  shortVideoUrl : Option String
  fullVideoUrl : Option String
deriving DecidableEq, Repr

/-- The copy/open action groups a credential card renders
(client-dashboard.tsx lines 286-410), one tag per conditionally rendered
group, in source order. -/
def credentialActionGroups (c : ProjectCredentials) : List String :=
  (if truthy c.liveLink then ["live"] else []) ++
  (if truthy c.adminPanelLink then ["admin"] else []) ++
  (if truthy c.databaseUrl then ["db"] else []) ++
  (if truthy c.serverCredentials then ["server"] else []) ++
  (if truthy c.shortVideoUrl then ["short-video"] else []) ++
  (if truthy c.fullVideoUrl then ["full-video"] else [])

/-- Whether the "Your Project Credentials" section is rendered at all
(client-dashboard.tsx line 248): `credentials && credentials.length > 0`. -/
def credentialsSectionShown (credentials : Option (List ProjectCredentials)) : Bool :=
  match credentials with
  | none => false
  | some l => decide (0 < l.length)

/-- The `ClientDashboardStats` interface (client-dashboard.tsx
lines 11-19); amounts modelled as exact rationals. -/
structure ClientDashboardStats where
  totalProjects : Nat
  activeProjects : Nat
  completedProjects : Nat
  totalInvoices : Nat
  totalSpent : Rat
  pendingAmount : Rat
  paidInvoices : Nat
deriving DecidableEq, Repr

/-- JavaScript `Number.prototype.toFixed(2)`: round to the nearest
hundredth (half away from zero on ties, as for the exact decimal values at
stake here) and print with exactly two fraction digits. -/
def toFixed2 (q : Rat) : String :=
  let centsAbs : Nat := ((|q| * 100 + 1 / 2).floor).toNat
  let sign := if q < 0 then "-" else ""
  sign ++ toString (centsAbs / 100) ++ "." ++
    ((if centsAbs % 100 < 10 then "0" else "") ++ toString (centsAbs % 100))

/-- The six KPI card values in source order (client-dashboard.tsx
lines 56-99); the two monetary cards are template strings. -/
structure KpiDisplay where
  totalProjects : Nat
  activeProjects : Nat
  completedProjects : Nat
  totalSpent : String
  pendingAmount : String
  paidInvoices : Nat
deriving DecidableEq, Repr

/-- The `kpis` array's `value` fields: `stats?.field ?? 0` for the counts
and `` `${stats?.field?.toFixed(2) ?? "0.00"}` `` for the amounts. -/
def kpiValues (stats : Option ClientDashboardStats) : KpiDisplay where
  totalProjects := match stats with | some st => st.totalProjects | none => 0
  activeProjects := match stats with | some st => st.activeProjects | none => 0
  completedProjects := match stats with | some st => st.completedProjects | none => 0
  totalSpent := match stats with | some st => toFixed2 st.totalSpent | none => "0.00"
  pendingAmount := match stats with | some st => toFixed2 st.pendingAmount | none => "0.00"
  paidInvoices := match stats with | some st => st.paidInvoices | none => 0

/-- An `Invoice` record (data model section 3). -/
structure Invoice where
  id : String
  invoiceNumber : String
  amount : Rat
  dueDate : String
  status : String
deriving DecidableEq, Repr

/-- The "Active Projects" panel contents (client-dashboard.tsx line 172):
`projects?.filter(p => p.status === "active").slice(0, 5)`. -/
def activeProjectsPanel (projects : List Project) : List Project :=
  (projects.filter (fun p => p.status == "active")).take 5

/-- The "Recent Invoices" panel contents (client-dashboard.tsx line 197):
`invoices?.slice(0, 5)`. -/
def recentInvoicesPanel (invoices : List Invoice) : List Invoice :=
  invoices.take 5

/-- Spec-side characterization of the active-projects panel, written from
the spec's words: the first at most `n` elements satisfying the predicate,
kept in input order (a "predicate + bounded-slice operation with stable
input order preserved"). -/
def takeFirstMatching (n : Nat) (f : α → Bool) : List α → List α
  | [] => []
  | a :: as =>
    if f a then
      match n with
      | 0 => []
      | Nat.succ m => a :: takeFirstMatching m f as
    else takeFirstMatching n f as

/-- Field-wise semantic comparison of a submitted patch value against a
canonical optional string field: a present value must be reproduced
verbatim; an absent value is identified with the empty string (the save
direction's "explicit clear" convention, spec section 4.2). -/
def optStrEqB (patchVal : String) (canon : Option String) : Bool :=
  match canon with
  | some s => patchVal == s
  | none => patchVal == ""

/-- Semantic comparison for the deadline: date fields compare equal as
calendar dates; an absent deadline is identified with the empty string. -/
def deadlineEqB (patchVal : String) (canon : Option DeadlineValue) : Bool :=
  match canon with
  | some dv => patchVal == calendarDateOf dv
  | none => patchVal == ""

/-- Semantic comparison for progress: an absent progress is identified
with the data model's default 0. -/
def progressEqB (patchVal : Nat) (canon : Option Nat) : Bool :=
  match canon with
  | some n => patchVal == n
  | none => patchVal == 0

/-- Semantic equality of a submitted patch with the canonical record it
was loaded from: same values for every field the form edits, the deadline
compared as a calendar date, absent optional fields charitably identified
with their sentinels ("" for strings, 0 for progress). -/
def semanticallyReproducesB (patch : ProjectFormData) (r : Project) : Bool :=
  patch.clientId == r.clientId &&
  patch.name == r.name &&
  patch.status == r.status &&
  optStrEqB patch.description r.description &&
  optStrEqB patch.budget r.budget &&
  progressEqB patch.progress r.progress &&
  deadlineEqB patch.deadline r.deadline &&
  optStrEqB patch.shortVideoUrl r.shortVideoUrl &&
  optStrEqB patch.fullFeatureVideoUrl r.fullFeatureVideoUrl &&
  optStrEqB patch.hostingLink r.hostingLink &&
  optStrEqB patch.adminLoginLink r.adminLoginLink &&
  optStrEqB patch.adminUsername r.adminUsername &&
  optStrEqB patch.adminPassword r.adminPassword &&
  optStrEqB patch.credentialsNotes r.credentialsNotes

/-- A concrete canonical record whose budget is absent. -/
def projectNoBudget : Project where
  id := "p1"
  clientId := "c1"
  name := "Website Redesign"
  description := some "Marketing site"
  status := "active"
  budget := none
  progress := some 40
  deadline := some (.str "2026-03-01")
  shortVideoUrl := none
  fullFeatureVideoUrl := none
  hostingLink := none
  adminLoginLink := none
  adminUsername := none
  adminPassword := none
  credentialsNotes := none

/-- A concrete canonical record with a present, non-empty budget. -/
def projectWithBudget : Project where
  id := "p2"
  clientId := "c2"
  name := "Shop Build"
  description := some "Storefront"
  status := "planning"
  budget := some "5000"
  progress := some 10
  deadline := some (.date "2026-06-15")
  shortVideoUrl := some "https://youtu.be/a"
  fullFeatureVideoUrl := none
  hostingLink := some "https://example.com"
  adminLoginLink := none
  adminUsername := some "admin@example.com"
  adminPassword := some "hunter2"
  credentialsNotes := none

/-- A concrete canonical record with every optional field absent. -/
def projectAllAbsent : Project where
  id := "p0"
  clientId := "c0"
  name := "Bare"
  status := "planning"
  description := none
  budget := none
  progress := none
  deadline := none
  shortVideoUrl := none
  fullFeatureVideoUrl := none
  hostingLink := none
  adminLoginLink := none
  adminUsername := none
  adminPassword := none
  credentialsNotes := none

/-- A concrete credentials record with only the live link set. -/
def credOnlyLive : ProjectCredentials where
  id := "cr1"
  projectName := "Site"
  thumbnailUrl := none
  hostingPlatform := none
  shortDescription := none
  liveLink := some "https://example.com"
  adminPanelLink := none
  databaseUrl := none
  serverCredentials := none
  shortVideoUrl := none
  fullVideoUrl := none

/-- The `onClick` of the empty-state "Add Project" button
(projects.tsx line 539): a bare `setOpen(true)`, with no other state
change — in particular `showPassword` is not reset. -/
def openFromEmptyState (s : PageState) : PageState :=
  { s with openDialog := true }

/-- The `onClick` of the password-visibility toggle
(projects.tsx line 486): `setShowPassword(!showPassword)`. -/
def togglePassword (s : PageState) : PageState :=
  { s with showPassword := !s.showPassword }

/-- The `onClick` of the Cancel button (projects.tsx line 520):
`setOpen(false)`, nothing else. -/
def closeDialog (s : PageState) : PageState :=
  { s with openDialog := false }

/-- The initial component state: dialog closed, nothing being edited,
password hidden, form at its `defaultValues`, no toasts. -/
def initialPageState : PageState where
  openDialog := false
  editingProject := none
  showPassword := false
  form := defaultFormValues
  toasts := []

/-- The load direction reproduces an optional string field up to the
empty-string-for-absent identification. -/
theorem optStrEqB_jsOrString (o : Option String) :
    optStrEqB (jsOrString o "") o = true := by
  cases o with
  | none => rfl
  | some s =>
    by_cases h : s = ""
    · subst h; rfl
    · simp [jsOrString, optStrEqB, h]

/-- The load direction reproduces a truthy budget verbatim. -/
theorem optStrEqB_jsOrString_budget (o : Option String) (h : truthy o = true) :
    optStrEqB (jsOrString o "0") o = true := by
  cases o with
  | none => simp [truthy] at h
  | some s =>
    have hs : ¬s = "" := by simpa [truthy] using h
    simp [jsOrString, optStrEqB, hs]

/-- The load direction reproduces progress up to the 0-for-absent
identification. -/
theorem progressEqB_nullishNat (o : Option Nat) :
    progressEqB (nullishNat o 0) o = true := by
  cases o <;> simp [nullishNat, progressEqB]

/-- The load direction reproduces the deadline as a calendar date. -/
theorem deadlineEqB_loadDeadline (d : Option DeadlineValue) :
    deadlineEqB (loadDeadline d) d = true := by
  cases d with
  | none => rfl
  | some dv =>
    cases dv with
    | str s =>
      by_cases h : s = ""
      · subst h; rfl
      · simp [loadDeadline, deadlineEqB, calendarDateOf, h]
    | date iso => simp [loadDeadline, deadlineEqB, calendarDateOf]

/-- C1 (counterexample): at the concrete record `projectNoBudget`, whose
budget is absent, loading the edit form and saving without edits produces
a patch whose budget is the string "0" — not semantically equal to the
original record even when absent optional fields are identified with their
empty sentinels. -/
theorem roundTrip_fails_on_absent_budget :
    projectNoBudget.budget = none ∧
    (normalizeProjectData (handleEditFormState projectNoBudget)).budget = "0" ∧
    semanticallyReproducesB (normalizeProjectData (handleEditFormState projectNoBudget))
      projectNoBudget = false := by
  refine ⟨rfl, rfl, ?_⟩
  decide

/-- C1 (amended): for every canonical Project record whose budget is
present and non-empty, loading the edit form (`handleEdit`) and saving the
unchanged form state (`onSubmit` with `normalizeProjectData`) produces a
patch semantically equal to the record: same values for every field, the
deadline compared as a calendar date, and absent optional fields
reproduced as their empty sentinels ("" — and 0 for progress). When the
budget is absent or empty, the patch instead carries budget "0". -/
theorem roundTrip_of_truthy_budget (r : Project) (h : truthy r.budget = true) :
    semanticallyReproducesB (normalizeProjectData (handleEditFormState r)) r = true := by
  simp [semanticallyReproducesB, normalizeProjectData, normalizeDateInput, handleEditFormState,
    optStrEqB_jsOrString, optStrEqB_jsOrString_budget r.budget h, progressEqB_nullishNat,
    deadlineEqB_loadDeadline]

/-- C1 (witness): the amended round-trip law evaluated at the concrete
record `projectWithBudget`. -/
theorem roundTrip_of_truthy_budget_witness :
    truthy projectWithBudget.budget = true ∧
    semanticallyReproducesB (normalizeProjectData (handleEditFormState projectWithBudget))
      projectWithBudget = true :=
  ⟨by decide, roundTrip_of_truthy_budget projectWithBudget (by decide)⟩

/-- C2 (counterexample): at the concrete record `projectAllAbsent`, the
absent budget is loaded into form state as "0", not as the empty string
the claim demands for every listed optional field. -/
theorem loadDirection_budget_not_empty :
    projectAllAbsent.budget = none ∧
    (handleEditFormState projectAllAbsent).budget = "0" ∧
    (handleEditFormState projectAllAbsent).budget ≠ "" := by
  refine ⟨rfl, rfl, ?_⟩
  decide

/-- C2 (amended): for every canonical Project record, each absent
optional field among description, deadline, shortVideoUrl,
fullFeatureVideoUrl, hostingLink, adminLoginLink, adminUsername,
adminPassword and credentialsNotes is loaded by `handleEdit` as the empty
string — never undefined and never any other sentinel — while an absent
budget is loaded as the string "0". -/
theorem loadDirection_defaults (r : Project) :
    (r.description = none → (handleEditFormState r).description = "") ∧
    (r.deadline = none → (handleEditFormState r).deadline = "") ∧
    (r.shortVideoUrl = none → (handleEditFormState r).shortVideoUrl = "") ∧
    (r.fullFeatureVideoUrl = none → (handleEditFormState r).fullFeatureVideoUrl = "") ∧
    (r.hostingLink = none → (handleEditFormState r).hostingLink = "") ∧
    (r.adminLoginLink = none → (handleEditFormState r).adminLoginLink = "") ∧
    (r.adminUsername = none → (handleEditFormState r).adminUsername = "") ∧
    (r.adminPassword = none → (handleEditFormState r).adminPassword = "") ∧
    (r.credentialsNotes = none → (handleEditFormState r).credentialsNotes = "") ∧
    (r.budget = none → (handleEditFormState r).budget = "0") := by
  refine ⟨?_, ?_, ?_, ?_, ?_, ?_, ?_, ?_, ?_, ?_⟩ <;>
    (intro h; simp [handleEditFormState, jsOrString, loadDeadline, h])

/-- C2 (witness): the amended load-direction defaults evaluated at the
concrete record `projectAllAbsent`, every optional field absent. -/
theorem loadDirection_defaults_witness :
    (handleEditFormState projectAllAbsent).description = "" ∧
    (handleEditFormState projectAllAbsent).deadline = "" ∧
    (handleEditFormState projectAllAbsent).shortVideoUrl = "" ∧
    (handleEditFormState projectAllAbsent).fullFeatureVideoUrl = "" ∧
    (handleEditFormState projectAllAbsent).hostingLink = "" ∧
    (handleEditFormState projectAllAbsent).adminLoginLink = "" ∧
    (handleEditFormState projectAllAbsent).adminUsername = "" ∧
    (handleEditFormState projectAllAbsent).adminPassword = "" ∧
    (handleEditFormState projectAllAbsent).credentialsNotes = "" ∧
    (handleEditFormState projectAllAbsent).budget = "0" := by
  have h := loadDirection_defaults projectAllAbsent
  exact ⟨h.1 rfl, h.2.1 rfl, h.2.2.1 rfl, h.2.2.2.1 rfl, h.2.2.2.2.1 rfl,
    h.2.2.2.2.2.1 rfl, h.2.2.2.2.2.2.1 rfl, h.2.2.2.2.2.2.2.1 rfl,
    h.2.2.2.2.2.2.2.2.1 rfl, h.2.2.2.2.2.2.2.2.2 rfl⟩

/-- C3 (counterexample): "draft" is in the known status enumerations, yet
the projects page's `getStatusColor` maps it to the neutral default tag
(the dashboard's maps it to a non-default tag). -/
theorem statusColor_projects_draft_default :
    "draft" ∈ projectStatuses ++ invoiceStatuses ∧
    getStatusColorProjects "draft" = defaultStatusColor ∧
    getStatusColorDashboard "draft" ≠ defaultStatusColor := by
  decide

/-- C3 (amended): both `getStatusColor` functions are total, returning the
neutral default tag exactly outside the statuses they classify — the
dashboard's classifies all eight known project and invoice statuses with
non-default tags, while the projects page's classifies only the four
project statuses, mapping the four invoice statuses (and every unknown
string) to the default tag, never throwing. -/
theorem statusColor_totality (s : String) :
    (getStatusColorDashboard s = defaultStatusColor ↔
      s ∉ projectStatuses ++ invoiceStatuses) ∧
    (getStatusColorProjects s = defaultStatusColor ↔ s ∉ projectStatuses) := by
  constructor
  · unfold getStatusColorDashboard
    split_ifs with h1 h2 h3 h4 h5 h6 h7 h8 <;>
      simp_all [defaultStatusColor, projectStatuses, invoiceStatuses]
  · unfold getStatusColorProjects
    split_ifs with h1 h2 h3 h4 <;>
      simp_all [defaultStatusColor, projectStatuses]

/-- C4 (counterexample): when the progress field is missing, the badge
interpolation `{project.progress}%` renders "%" — the missing value
renders as nothing — not the "0%" the claim demands. -/
theorem progressBadge_missing_not_zero :
    progressBadgeText none = "%" ∧ progressBadgeText none ≠ "0%" := by
  decide

/-- C4 (amended): for every displayed Project the badge text is the
progress value followed by "%" when progress is present; when progress is
missing the badge shows just "%" (the missing value renders as nothing),
while it is the progress bar's value, not the badge, that defaults to 0. -/
theorem progressBadge_display (n : Nat) :
    progressBadgeText (some n) = toString n ++ "%" ∧
    progressBadgeText none = "%" ∧
    progressBarValue (some n) = n ∧
    progressBarValue none = 0 :=
  ⟨rfl, rfl, rfl, rfl⟩

/-- Membership in a conditionally rendered singleton fragment. -/
theorem mem_ite_singleton (a b : String) (cond : Bool) :
    (a ∈ if cond then [b] else []) ↔ (cond = true ∧ a = b) := by
  cases cond <;> simp

/-- C5: a credential card renders the copy/open action group of each of
the six credential fields exactly when that field is present (a non-empty
string), any subset of present fields is tolerated, the whole credentials
section is omitted when there is no credential record, and a record with
only `liveLink` set exposes exactly the one live-link action group. -/
theorem credentialAffordanceVisibility (c : ProjectCredentials)
    (cs : List ProjectCredentials) :
    (("live" ∈ credentialActionGroups c) ↔ truthy c.liveLink = true) ∧
    (("admin" ∈ credentialActionGroups c) ↔ truthy c.adminPanelLink = true) ∧
    (("db" ∈ credentialActionGroups c) ↔ truthy c.databaseUrl = true) ∧
    (("server" ∈ credentialActionGroups c) ↔ truthy c.serverCredentials = true) ∧
    (("short-video" ∈ credentialActionGroups c) ↔ truthy c.shortVideoUrl = true) ∧
    (("full-video" ∈ credentialActionGroups c) ↔ truthy c.fullVideoUrl = true) ∧
    credentialsSectionShown none = false ∧
    credentialsSectionShown (some []) = false ∧
    (cs ≠ [] → credentialsSectionShown (some cs) = true) ∧
    ((truthy c.liveLink = true ∧ truthy c.adminPanelLink = false ∧
      truthy c.databaseUrl = false ∧ truthy c.serverCredentials = false ∧
      truthy c.shortVideoUrl = false ∧ truthy c.fullVideoUrl = false) →
      credentialActionGroups c = ["live"]) := by
  refine ⟨?_, ?_, ?_, ?_, ?_, ?_, rfl, rfl, ?_, ?_⟩
  · simp [credentialActionGroups, mem_ite_singleton]
  · simp [credentialActionGroups, mem_ite_singleton]
  · simp [credentialActionGroups, mem_ite_singleton]
  · simp [credentialActionGroups, mem_ite_singleton]
  · simp [credentialActionGroups, mem_ite_singleton]
  · simp [credentialActionGroups, mem_ite_singleton]
  · intro h
    cases cs with
    | nil => exact absurd rfl h
    | cons a as => simp [credentialsSectionShown]
  · rintro ⟨h1, h2, h3, h4, h5, h6⟩
    simp [credentialActionGroups, h1, h2, h3, h4, h5, h6]

/-- C5 (witness): the visibility law evaluated at the concrete record
`credOnlyLive`, whose only present field is the live link. -/
theorem credentialAffordanceVisibility_witness :
    credentialActionGroups credOnlyLive = ["live"] ∧
    credentialsSectionShown (some [credOnlyLive]) = true := by
  have h := credentialAffordanceVisibility credOnlyLive [credOnlyLive]
  exact ⟨h.2.2.2.2.2.2.2.2.2 (by decide), h.2.2.2.2.2.2.2.2.1 (by decide)⟩

/-- C6: when the dashboard-stats fetch has produced no data, every KPI
card displays a zero value — 0 for the four counts and "0.00" for the two
monetary amounts — and the computation is total (no crash). -/
theorem absentStatsAllZero :
    kpiValues none =
      { totalProjects := 0, activeProjects := 0, completedProjects := 0,
        totalSpent := "0.00", pendingAmount := "0.00", paidInvoices := 0 } :=
  rfl

/-- C7: a failed create or update mutation raises a destructive toast
carrying the server-provided message and leaves every piece of
form-related state — the open dialog, the project being edited, the
password visibility and the form values — unchanged. -/
theorem mutationErrorAtomic (s : PageState) (msg : String) :
    (mutationOnError s msg).openDialog = s.openDialog ∧
    (mutationOnError s msg).editingProject = s.editingProject ∧
    (mutationOnError s msg).showPassword = s.showPassword ∧
    (mutationOnError s msg).form = s.form ∧
    (mutationOnError s msg).toasts =
      s.toasts ++ [{ title := "Error", description := msg, variant := some "destructive" }] :=
  ⟨rfl, rfl, rfl, rfl, rfl⟩

/-- Taking a bounded slice of a filtered list collects the first at most
`n` elements satisfying the predicate, in input order. -/
theorem take_filter_eq_takeFirstMatching (f : α → Bool) :
    ∀ (n : Nat) (l : List α), (l.filter f).take n = takeFirstMatching n f l := by
  intro n l
  induction l generalizing n with
  | nil => simp [takeFirstMatching]
  | cons a as ih =>
    cases h : f a with
    | true =>
      cases n with
      | zero => simp [takeFirstMatching, h, List.filter_cons]
      | succ m => simp [takeFirstMatching, h, List.filter_cons, ih]
    | false => simp [takeFirstMatching, h, List.filter_cons, ih]

/-- C8: the "Active Projects" panel shows exactly the first at-most-5
projects whose status is "active", in input order (it equals the
spec-side `takeFirstMatching` characterization), and the "Recent
Invoices" panel is an order-preserving bounded slice: a prefix of the
input of length `min 5 (length input)`. -/
theorem listPanels_boundedSlices (ps : List Project) (inv : List Invoice) :
    activeProjectsPanel ps = takeFirstMatching 5 (fun p => p.status == "active") ps ∧
    (∃ rest, recentInvoicesPanel inv ++ rest = inv) ∧
    (recentInvoicesPanel inv).length = min 5 inv.length :=
  ⟨take_filter_eq_takeFirstMatching _ 5 ps,
   ⟨inv.drop 5, List.take_append_drop 5 inv⟩,
   List.length_take 5 inv⟩

/-- C9 (counterexample): not every path that opens the project dialog
resets `showPassword` — the empty-state "Add Project" button is a bare
`setOpen(true)`. Concretely: open via `handleAddNew`, toggle the password
visible, cancel, then reopen through that button: the dialog appears with
`showPassword` still true and the admin-password input rendered with
type "text" (unmasked). -/
theorem passwordUnmasked_via_emptyState :
    (openFromEmptyState (closeDialog (togglePassword
      (handleAddNew initialPageState)))).openDialog = true ∧
    (openFromEmptyState (closeDialog (togglePassword
      (handleAddNew initialPageState)))).showPassword = true ∧
    passwordInputType (openFromEmptyState (closeDialog (togglePassword
      (handleAddNew initialPageState)))).showPassword = "text" :=
  ⟨rfl, rfl, rfl⟩

/-- C9 (amended): the two handler paths that open the project dialog —
`handleEdit` for an existing project and `handleAddNew` for a new one —
set `showPassword` to false in the same transition, so through them the
admin-password input is rendered with type "password" (masked) when the
dialog appears, even though the password value itself sits in form state
in plain text; the empty-state "Add Project" button, however, opens the
dialog without resetting `showPassword`, so a previously toggled
visibility survives into the reopened dialog. -/
theorem passwordStartsMasked (s : PageState) (p : Project) :
    (handleEdit s p).showPassword = false ∧
    (handleEdit s p).openDialog = true ∧
    passwordInputType (handleEdit s p).showPassword = "password" ∧
    (handleEdit s p).form.adminPassword = jsOrString p.adminPassword "" ∧
    (handleAddNew s).showPassword = false ∧
    (handleAddNew s).openDialog = true ∧
    passwordInputType (handleAddNew s).showPassword = "password" ∧
    (openFromEmptyState s).openDialog = true ∧
    (openFromEmptyState s).showPassword = s.showPassword :=
  ⟨rfl, rfl, rfl, rfl, rfl, rfl, rfl, rfl, rfl⟩

/-- C10: the two `getStatusColor` functions are not extensionally equal —
on each of "planning", "active" and "completed" they return different
non-default tags — and the projects page's function returns the neutral
default tag on every invoice status. -/
theorem statusColorFunctionsDiffer :
    getStatusColorDashboard "planning" ≠ getStatusColorProjects "planning" ∧
    getStatusColorDashboard "planning" ≠ defaultStatusColor ∧
    getStatusColorProjects "planning" ≠ defaultStatusColor ∧
    getStatusColorDashboard "active" ≠ getStatusColorProjects "active" ∧
    getStatusColorDashboard "active" ≠ defaultStatusColor ∧
    getStatusColorProjects "active" ≠ defaultStatusColor ∧
    getStatusColorDashboard "completed" ≠ getStatusColorProjects "completed" ∧
    getStatusColorDashboard "completed" ≠ defaultStatusColor ∧
    getStatusColorProjects "completed" ≠ defaultStatusColor ∧
    getStatusColorProjects "draft" = defaultStatusColor ∧
    getStatusColorProjects "sent" = defaultStatusColor ∧
    getStatusColorProjects "paid" = defaultStatusColor ∧
    getStatusColorProjects "overdue" = defaultStatusColor := by
  decide
